import Mathlib

/-!
Verification of the adonisjs-lucid facade consisting of the Postgres
dialect adapter (src/dialects/pg.ts, class PgDialect) and the query
client (class QueryClient).

The database itself is external: catalog queries are modelled by their
result semantics over an explicit catalog state, raw statements by the
SQL string the code builds, and the driver by an oracle function where a
claim needs the response.  Knex handles are modelled by their reference
identity (a natural number).
-/

set_option autoImplicit false

/-- A knex connection handle, identified by reference identity. -/
abbrev Handle := Nat

/-- Model of the poppinss Exception value thrown by the query client:
message, HTTP status and diagnostic code. -/
structure Exn where
  message : String
  status : Nat
  code : String
deriving DecidableEq

/-- Connection mode of a query client, fixed at construction. -/
inductive Mode where
  | read
  | write
  | dual
deriving DecidableEq

/-- Model of the ConnectionContract collaborator: a name, the resolved
knex client name, the primary (write) handle and the read handle.  The
source accesses both handles through non-null assertions, so both are
modelled as present. -/
structure Connection where
  name : String
  clientName : String
  client : Handle
  readClient : Handle
deriving DecidableEq

/-- Model of class QueryClient: the construction-time mode, the
connection reference and the optional profiler reference (by identity). -/
structure QueryClient where
  mode : Mode
  connection : Connection
  profiler : Option Nat
deriving DecidableEq

/-- A knex query builder: the handle it was created from and the table
selected on it, if any. -/
structure KnexQueryBuilder where
  handle : Handle
  table : Option String
deriving DecidableEq

/-- Model of DatabaseQueryBuilder: the wrapped knex builder and the
query client it is bound to. -/
structure DatabaseQueryBuilder where
  knexBuilder : KnexQueryBuilder
  client : QueryClient
deriving DecidableEq

/-- Model of InsertQueryBuilder: the wrapped knex builder and the query
client it is bound to. -/
structure InsertQueryBuilder where
  knexBuilder : KnexQueryBuilder
  client : QueryClient
deriving DecidableEq

/-- Model of TransactionClient as far as transaction() populates it:
the knex transaction (identified by the handle it was started on), the
dialect name, the connection name and the profiler set after
construction. -/
structure TransactionClient where
  knexClient : Handle
  dialect : String
  connectionName : String
  profiler : Option Nat
deriving DecidableEq

namespace QueryClient

/-- The exception thrown by getWriteClient on a read-mode client. -/
def writeModeExn : Exn :=
  ⟨"Write client is not available for query client instantiated in read mode",
   500, "E_RUNTIME_EXCEPTION"⟩

/-- The dialect string of the client, resolved from the connection
configuration (alias resolution is performed by the external knex
helper, modelled as already applied in Connection.clientName). -/
def dialect (c : QueryClient) : String :=
  c.connection.clientName

/-- getReadClient: the read handle in read or dual mode, otherwise the
primary handle. -/
def getReadClient (c : QueryClient) : Handle :=
  if c.mode = .read ∨ c.mode = .dual then c.connection.readClient
  else c.connection.client

/-- getWriteClient: the primary handle in write or dual mode, otherwise
a thrown Exception, modelled as the error branch of Except. -/
def getWriteClient (c : QueryClient) : Except Exn Handle :=
  if c.mode = .write ∨ c.mode = .dual then Except.ok c.connection.client
  else Except.error writeModeExn

/-- truncate: getWriteClient().select(table).truncate().  The model
records the handle and table the truncate would run against; in the
error case nothing reaches the database. -/
def truncate (c : QueryClient) (tbl : String) : Except Exn (Handle × String) :=
  (getWriteClient c).map (fun h => (h, tbl))

/-- columnsInfo: getWriteClient().select(table) then columnInfo(column)
or columnInfo().  The model records the handle, table and optional
column; in the error case nothing reaches the database. -/
def columnsInfo (c : QueryClient) (tbl : String) (column : Option String) :
    Except Exn (Handle × String × Option String) :=
  (getWriteClient c).map (fun h => (h, tbl, column))

/-- transaction: begins a transaction on getWriteClient() (the knex
transaction is identified by the handle it was started on), builds a
TransactionClient from the dialect and connection name, then assigns the
parent profiler to it. -/
def transaction (c : QueryClient) : Except Exn TransactionClient :=
  (getWriteClient c).map (fun h => ⟨h, dialect c, c.connection.name, c.profiler⟩)

/-- knexQuery: a fresh query builder created from the connection
primary handle (the source uses connection.client directly). -/
def knexQuery (c : QueryClient) : KnexQueryBuilder :=
  ⟨c.connection.client, none⟩

/-- query: a DatabaseQueryBuilder wrapping knexQuery() and this client. -/
def query (c : QueryClient) : DatabaseQueryBuilder :=
  ⟨knexQuery c, c⟩

/-- insertQuery: an InsertQueryBuilder wrapping a builder created from
getWriteClient() and this client. -/
def insertQuery (c : QueryClient) : Except Exn InsertQueryBuilder :=
  (getWriteClient c).map (fun h => ⟨⟨h, none⟩, c⟩)

/-- from: query() with the table selected on the wrapped builder. -/
def from' (c : QueryClient) (tbl : String) : DatabaseQueryBuilder :=
  let b := query c
  ⟨⟨b.knexBuilder.handle, some tbl⟩, b.client⟩

/-- table: insertQuery() with the table selected on the wrapped
builder. -/
def table (c : QueryClient) (tbl : String) : Except Exn InsertQueryBuilder :=
  (insertQuery c).map (fun b => ⟨⟨b.knexBuilder.handle, some tbl⟩, b.client⟩)

end QueryClient

/-- A row of the pg_type system catalog, restricted to the columns the
dialect queries use: oid, typname, typtype and typnamespace. -/
structure PgTypeRow where
  oid : Nat
  typname : String
  typtype : Char
  typnamespace : Nat
deriving DecidableEq

namespace PgDialect

/-- The double-quote character used when building identifiers. -/
def dq : Char := Char.ofNat 34

/-- The single-quote character used by the advisory lock statements. -/
def sq : Char := Char.ofNat 39

/-- String consisting of one double quote. -/
def dqs : String := String.singleton dq

/-- String consisting of one single quote. -/
def sqs : String := String.singleton sq

/-- Formats one pg_tables (or pg_views) catalog row, given as a
(schemaname, tablename) pair, into the fully qualified quoted
identifier the dialect returns. -/
def formatTable (r : String × String) : String :=
  dqs ++ r.1 ++ dqs ++ "." ++ dqs ++ r.2 ++ dqs

/-- Lexicographic comparison of character lists by code point, the
order model used for the ORDER BY clause of the catalog queries. -/
def charListLt : List Char → List Char → Bool
  | [], [] => false
  | [], _ :: _ => true
  | _ :: _, [] => false
  | a :: as, b :: bs =>
    if a.toNat < b.toNat then true
    else if b.toNat < a.toNat then false
    else charListLt as bs

/-- Lexicographic string comparison by code point. -/
def strLt (a b : String) : Bool :=
  charListLt a.toList b.toList

/-- Inserts a catalog row into a list sorted ascending by table name:
evaluation of the ORDER BY tablename ASC clause of the catalog query. -/
def insertRow (r : String × String) : List (String × String) → List (String × String)
  | [] => [r]
  | x :: xs => if strLt x.2 r.2 then x :: insertRow r xs else r :: x :: xs

/-- Sorts catalog rows ascending by table name (the server side ORDER
BY of the catalog query, modelled with the default string order). -/
def sortByTableName : List (String × String) → List (String × String)
  | [] => []
  | x :: xs => insertRow x (sortByTableName xs)

/-- getAllTables: the catalog query over pg_catalog.pg_tables restricted
by WHERE schemaname IN (schemas) and ordered by tablename, each row then
mapped to its quoted, schema qualified identifier. -/
def getAllTables (schemas : List String) (pgTables : List (String × String)) :
    List String :=
  (sortByTableName (pgTables.filter (fun r => schemas.contains r.1))).map formatTable

/-- getAllTypes: distinct typnames of pg_type rows joined with pg_enum
on pg_enum.enumtypid = pg_type.oid.  The schemas parameter is unused in
the source (it is named with a leading underscore there). -/
def getAllTypes (_schemas : List String) (pgType : List PgTypeRow)
    (pgEnum : List Nat) : List String :=
  ((pgType.filter (fun t => pgEnum.any (fun e => e == t.oid))).map
    (fun t => t.typname)).eraseDups

/-- getAllDomains: distinct typnames of pg_type rows joined with
pg_namespace on pg_namespace.oid = pg_type.typnamespace, restricted to
typtype = d.  The schemas parameter is unused in the source. -/
def getAllDomains (_schemas : List String) (pgType : List PgTypeRow)
    (pgNamespace : List Nat) : List String :=
  ((pgType.filter (fun t => t.typtype == Char.ofNat 100 &&
      pgNamespace.any (fun n => n == t.typnamespace))).map
    (fun t => t.typname)).eraseDups

/-- Whether a string starts with a double quote, checked on its first
character (the startsWith call of the source applied to a one character
pattern). -/
def startsWithDq (t : String) : Bool :=
  match t.toList with
  | [] => false
  | c :: _ => c == dq

/-- truncate: the raw statement text issued, quoting the table only
when it does not already start with a double quote. -/
def truncate (tbl : String) (cascade : Bool) : String :=
  let quotedTable := if startsWithDq tbl then tbl else dqs ++ tbl ++ dqs
  if cascade then "TRUNCATE " ++ quotedTable ++ " RESTART IDENTITY CASCADE;"
  else "TRUNCATE " ++ quotedTable ++ ";"

/-- The ignore list for dropAllTables: config.wipe?.ignoreTables with
the single spatial_ref_sys table as default when the option is absent. -/
def ignoreTablesList (cfg : Option (List String)) : List String :=
  cfg.getD ["spatial_ref_sys"]

/-- Splits a character list on the dot character, the semantics of the
javascript split call of extractTableName.  The accumulator holds the
current segment reversed. -/
def splitOnDotAux : List Char → List Char → List (List Char)
  | [], acc => [acc.reverse]
  | c :: cs, acc =>
    if c == Char.ofNat 46 then acc.reverse :: splitOnDotAux cs []
    else splitOnDotAux cs (c :: acc)

/-- The segments of a string split on the dot character. -/
def splitOnDot (t : String) : List (List Char) :=
  splitOnDotAux t.toList []

/-- extractTableName of dropAllTables: the second segment of the
identifier split on the dot, with every double quote removed.  In the
source a dotless argument would fault on the index; here the pipeline
only ever applies it to formatTable output, which always contains a
dot. -/
def extractTableName (t : String) : String :=
  String.mk (((splitOnDot t).getD 1 []).filter (fun c => c != dq))

/-- The tables dropAllTables keeps after removing every table whose
extracted name appears in the ignore list. -/
def tablesToDrop (schemas : List String) (pgTables : List (String × String))
    (cfg : Option (List String)) : List String :=
  (getAllTables schemas pgTables).filter
    (fun t => !(ignoreTablesList cfg).contains (extractTableName t))

/-- dropAllTables: resolves the table list, filters by the ignore list,
returns without a statement when the filtered list is empty, otherwise
issues one combined DROP TABLE with CASCADE.  The optional result is
the statement issued. -/
def dropAllTables (schemas : List String) (pgTables : List (String × String))
    (cfg : Option (List String)) : Option String :=
  let tables := tablesToDrop schemas pgTables cfg
  if tables.isEmpty then none
  else some ("DROP TABLE " ++ String.intercalate ", " tables ++ " CASCADE;")

/-- The five built-in information schema domains the source never
drops. -/
def builtInDomains : List String :=
  ["cardinal_number", "character_data", "sql_identifier", "time_stamp", "yes_or_no"]

/-- The domains dropAllDomains joins into its statement: the resolved
domains without the built-in ones. -/
def domainsToDrop (schemas : List String) (pgType : List PgTypeRow)
    (pgNamespace : List Nat) : List String :=
  (getAllDomains schemas pgType pgNamespace).filter
    (fun d => !builtInDomains.contains d)

/-- dropAllDomains: resolves the domain list, returns without a
statement when that list is empty, otherwise filters out the built-in
domains and issues one combined DROP DOMAIN with CASCADE.  Note the
emptiness check in the source precedes the built-in filter. -/
def dropAllDomains (schemas : List String) (pgType : List PgTypeRow)
    (pgNamespace : List Nat) : Option String :=
  let domains := getAllDomains schemas pgType pgNamespace
  if domains.isEmpty then none
  else some ("DROP DOMAIN " ++ dqs ++
    String.intercalate (dqs ++ ", " ++ dqs) (domainsToDrop schemas pgType pgNamespace) ++
    dqs ++ " CASCADE;")

/-- One row of the raw driver response to the advisory lock statements:
the lock_status column as the javascript value of the strict comparison
target (some b when it is a boolean, none otherwise). -/
structure LockRow where
  lock_status : Option Bool
deriving DecidableEq

/-- The raw driver response: its rows. -/
structure RawResponse where
  rows : List LockRow
deriving DecidableEq

/-- The statement getAdvisoryLock sends: the non blocking
PG_TRY_ADVISORY_LOCK form. -/
def tryAdvisoryLockSql (key : String) : String :=
  "SELECT PG_TRY_ADVISORY_LOCK(" ++ sqs ++ key ++ sqs ++ ") as lock_status;"

/-- getAdvisoryLock: sends the try lock statement through rawQuery (the
driver is the oracle parameter) and returns whether the first row exists
and its lock_status is strictly the boolean true.  With no rows the
source expression evaluates to a falsy value, modelled as false. -/
def getAdvisoryLock (key : String) (rawQuery : String → RawResponse) : Bool :=
  let response := rawQuery (tryAdvisoryLockSql key)
  match response.rows with
  | [] => false
  | row :: _ => row.lock_status == some true

end PgDialect

/-- A concrete connection with distinct primary and read handles. -/
def sampleConnection : Connection :=
  ⟨"primary", "postgres", 1, 2⟩

/-- A query client constructed in read mode. -/
def sampleReadClient : QueryClient :=
  ⟨.read, sampleConnection, none⟩

/-- A query client constructed in dual mode. -/
def sampleDualClient : QueryClient :=
  ⟨.dual, sampleConnection, none⟩

/-- A query client constructed in write mode with a profiler attached. -/
def sampleWriteClient : QueryClient :=
  ⟨.write, sampleConnection, some 7⟩

/-- The transaction client sampleWriteClient.transaction() produces. -/
def sampleTrxClient : TransactionClient :=
  ⟨1, "postgres", "primary", some 7⟩

/-- The insert builder sampleDualClient.insertQuery() produces. -/
def sampleInsertBuilder : InsertQueryBuilder :=
  ⟨⟨1, none⟩, sampleDualClient⟩

/-- A driver whose every response reports the lock as not acquired,
the state seen when another session already holds the lock. -/
def heldLockDriver : String → PgDialect.RawResponse :=
  fun _ => ⟨[⟨some false⟩]⟩

/-- A pg_type catalog holding exactly one domain, the built-in
cardinal_number. -/
def builtinOnlyTypeRows : List PgTypeRow :=
  [⟨1, "cardinal_number", Char.ofNat 100, 10⟩]

/-- A pg_type catalog holding the built-in cardinal_number and the user
domain custom_status. -/
def exampleDomainTypeRows : List PgTypeRow :=
  [⟨1, "cardinal_number", Char.ofNat 100, 10⟩, ⟨2, "custom_status", Char.ofNat 100, 10⟩]

/-- A pg_namespace catalog with the single namespace oid the sample
type rows reference. -/
def exampleNamespaceOids : List Nat :=
  [10]

/-- A pg_tables catalog with a user table and the ignore-listed
spatial_ref_sys table, both in schema public. -/
def exampleTableCatalog : List (String × String) :=
  [("public", "spatial_ref_sys"), ("public", "foo")]

/-- A pg_tables catalog whose schema name contains a dot, holding the
ignore-listed spatial_ref_sys table. -/
def dottedSchemaCatalog : List (String × String) :=
  [("a.b", "spatial_ref_sys")]

/-! Helper lemmas about the sort used by getAllTables. -/

/-- Membership in the insertion step of the catalog sort. -/
theorem mem_insertRow (r x : String × String) :
    ∀ l : List (String × String), x ∈ PgDialect.insertRow r l ↔ x = r ∨ x ∈ l
  | [] => by simp [PgDialect.insertRow]
  | y :: ys => by
    rw [PgDialect.insertRow]
    cases hc : PgDialect.strLt y.2 r.2 with
    | false => simp [hc]
    | true => simp [hc, mem_insertRow r x ys]; tauto

/-- Membership is preserved by the catalog sort. -/
theorem mem_sortByTableName (x : String × String) :
    ∀ l : List (String × String), x ∈ PgDialect.sortByTableName l ↔ x ∈ l
  | [] => Iff.rfl
  | y :: ys => by
    rw [PgDialect.sortByTableName, mem_insertRow, mem_sortByTableName x ys]
    simp

/-- When the extraction step recovers every unqualified table name, the
table list dropAllTables keeps is the formatted image of the catalog
rows whose table name is outside the ignore list. -/
theorem tablesToDrop_eq (schemas : List String) (pgTables : List (String × String))
    (cfg : Option (List String))
    (h : ∀ r ∈ pgTables, PgDialect.extractTableName (PgDialect.formatTable r) = r.2) :
    PgDialect.tablesToDrop schemas pgTables cfg =
      ((PgDialect.sortByTableName (pgTables.filter (fun r => schemas.contains r.1))).filter
        (fun r => !(PgDialect.ignoreTablesList cfg).contains r.2)).map PgDialect.formatTable := by
  unfold PgDialect.tablesToDrop PgDialect.getAllTables
  rw [List.filter_map]
  congr 1
  apply List.filter_congr
  intro r hr
  have hrcat : r ∈ pgTables := by
    have hmem := (mem_sortByTableName r _).mp hr
    exact (List.mem_filter.mp hmem).1
  simp only [Function.comp_apply, h r hrcat]

/-! Claim theorems. -/

/-- C1: a query client constructed in read mode fails getWriteClient()
synchronously with the fixed E_RUNTIME_EXCEPTION diagnostic (code,
status and message) and never returns a handle; in write or dual mode
getWriteClient() returns the connection primary (write) handle. -/
theorem getWriteClient_mode_spec (c : QueryClient) :
    (c.mode = .read →
      QueryClient.getWriteClient c = Except.error QueryClient.writeModeExn ∧
      QueryClient.writeModeExn.code = "E_RUNTIME_EXCEPTION" ∧
      QueryClient.writeModeExn.status = 500 ∧
      QueryClient.writeModeExn.message =
        "Write client is not available for query client instantiated in read mode" ∧
      ∀ h, QueryClient.getWriteClient c ≠ Except.ok h) ∧
    ((c.mode = .write ∨ c.mode = .dual) →
      QueryClient.getWriteClient c = Except.ok c.connection.client) := by
  constructor
  · intro hr
    have he : QueryClient.getWriteClient c = Except.error QueryClient.writeModeExn := by
      simp [QueryClient.getWriteClient, hr]
    exact ⟨he, rfl, rfl, rfl, fun h hok => by rw [he] at hok; exact Except.noConfusion hok⟩
  · intro hw
    simp [QueryClient.getWriteClient, hw]

/-- Witness for C1 at concrete read-mode and dual-mode clients. -/
theorem getWriteClient_mode_spec_witness :
    QueryClient.getWriteClient sampleReadClient = Except.error QueryClient.writeModeExn ∧
    QueryClient.getWriteClient sampleDualClient = Except.ok sampleDualClient.connection.client :=
  ⟨((getWriteClient_mode_spec sampleReadClient).1 rfl).1,
   (getWriteClient_mode_spec sampleDualClient).2 (Or.inr rfl)⟩

/-- C2, code behaviour at the failing input: with a domain catalog
holding only the built-in cardinal_number, the post-exclusion list is
empty, yet dropAllDomains still issues a statement, the malformed DROP
DOMAIN naming the empty string, because the source checks emptiness
before the built-in filter. -/
theorem dropAllDomains_builtin_only_emits :
    PgDialect.domainsToDrop [] builtinOnlyTypeRows exampleNamespaceOids = [] ∧
    PgDialect.dropAllDomains [] builtinOnlyTypeRows exampleNamespaceOids =
      some "DROP DOMAIN \"\" CASCADE;" := by
  exact ⟨by decide, by decide⟩

/-- C3, counterexample: on a dual-mode client whose read handle differs
from the primary handle, query() is bound to the primary (write)
handle, not to the read handle getReadClient() would select. -/
theorem query_read_handle_cex :
    (QueryClient.query sampleDualClient).knexBuilder.handle =
        sampleDualClient.connection.client ∧
    QueryClient.getReadClient sampleDualClient =
        sampleDualClient.connection.readClient ∧
    (QueryClient.query sampleDualClient).knexBuilder.handle ≠
        QueryClient.getReadClient sampleDualClient := by
  exact ⟨rfl, rfl, by decide⟩

/-- C3, amended: query() and from(table) return builders bound to the
connection primary (write) handle regardless of mode, while
insertQuery() and table(table) return builders bound to the handle
getWriteClient() yields (and therefore fail in read mode). -/
theorem builder_factories_handle_binding (c : QueryClient) (tbl : String) :
    (QueryClient.query c).knexBuilder.handle = c.connection.client ∧
    (QueryClient.from' c tbl).knexBuilder.handle = c.connection.client ∧
    (∀ b, QueryClient.insertQuery c = Except.ok b →
      QueryClient.getWriteClient c = Except.ok b.knexBuilder.handle) ∧
    (∀ b, QueryClient.table c tbl = Except.ok b →
      QueryClient.getWriteClient c = Except.ok b.knexBuilder.handle) := by
  refine ⟨rfl, rfl, ?_, ?_⟩
  · intro b hb
    unfold QueryClient.insertQuery at hb
    cases hgw : QueryClient.getWriteClient c with
    | error e => rw [hgw] at hb; exact Except.noConfusion hb
    | ok w =>
      rw [hgw] at hb
      simp only [Except.map] at hb
      cases hb
      rfl
  · intro b hb
    unfold QueryClient.table QueryClient.insertQuery at hb
    cases hgw : QueryClient.getWriteClient c with
    | error e => rw [hgw] at hb; exact Except.noConfusion hb
    | ok w =>
      rw [hgw] at hb
      simp only [Except.map] at hb
      cases hb
      rfl

/-- Witness for C3 amended at a concrete dual-mode client. -/
theorem builder_factories_handle_binding_witness :
    (QueryClient.query sampleDualClient).knexBuilder.handle =
        sampleDualClient.connection.client ∧
    QueryClient.getWriteClient sampleDualClient =
        Except.ok sampleInsertBuilder.knexBuilder.handle :=
  ⟨(builder_factories_handle_binding sampleDualClient "users").1,
   (builder_factories_handle_binding sampleDualClient "users").2.2.1 sampleInsertBuilder rfl⟩

/-- C4, counterexample: when the schema name contains a dot, the
extraction step of dropAllTables picks the wrong dot-segment, so a
table whose unqualified name is on the default ignore list is still
included in the emitted DROP TABLE statement. -/
theorem dropAllTables_dotted_schema_cex :
    "spatial_ref_sys" ∈ PgDialect.ignoreTablesList none ∧
    PgDialect.formatTable ("a.b", "spatial_ref_sys") ∈
      PgDialect.tablesToDrop ["a.b"] dottedSchemaCatalog none ∧
    PgDialect.dropAllTables ["a.b"] dottedSchemaCatalog none =
      some "DROP TABLE \"a.b\".\"spatial_ref_sys\" CASCADE;" := by
  exact ⟨by decide, by decide, by decide⟩

/-- C4, amended: provided the extraction step recovers each catalog
row's unqualified table name (which holds whenever schema and table
names contain no dot and table names no double quote), dropAllTables
never includes a table whose unqualified name is on the ignore list,
issues exactly one combined DROP TABLE CASCADE statement over the
remaining tables, and issues nothing when every discovered table is
ignore-listed. -/
theorem dropAllTables_ignorelist_spec (schemas : List String)
    (pgTables : List (String × String)) (cfg : Option (List String))
    (h : ∀ r ∈ pgTables, PgDialect.extractTableName (PgDialect.formatTable r) = r.2) :
    (∀ r ∈ pgTables, r.2 ∈ PgDialect.ignoreTablesList cfg →
      PgDialect.formatTable r ∉ PgDialect.tablesToDrop schemas pgTables cfg) ∧
    PgDialect.dropAllTables schemas pgTables cfg =
      (let kept :=
        ((PgDialect.sortByTableName (pgTables.filter (fun r => schemas.contains r.1))).filter
          (fun r => !(PgDialect.ignoreTablesList cfg).contains r.2)).map PgDialect.formatTable
       if kept.isEmpty then none
       else some ("DROP TABLE " ++ String.intercalate ", " kept ++ " CASCADE;")) := by
  constructor
  · intro r hr hin hmem
    unfold PgDialect.tablesToDrop at hmem
    have hpred := (List.mem_filter.mp hmem).2
    rw [h r hr] at hpred
    simp only [Bool.not_eq_true'] at hpred
    rw [List.contains_eq_any_beq] at hpred
    have : (PgDialect.ignoreTablesList cfg).any (r.2 == ·) = true :=
      List.any_eq_true.mpr ⟨r.2, hin, by simp⟩
    rw [this] at hpred
    exact Bool.noConfusion hpred
  · unfold PgDialect.dropAllTables
    rw [tablesToDrop_eq schemas pgTables cfg h]

/-- Witness for C4 amended: the end-to-end scenario of the spec, a
public schema with tables foo and spatial_ref_sys under the default
ignore list. -/
theorem dropAllTables_ignorelist_spec_witness :
    (∀ r ∈ exampleTableCatalog,
      PgDialect.extractTableName (PgDialect.formatTable r) = r.2) ∧
    PgDialect.dropAllTables ["public"] exampleTableCatalog none =
      some "DROP TABLE \"public\".\"foo\" CASCADE;" := by
  have h : ∀ r ∈ exampleTableCatalog,
      PgDialect.extractTableName (PgDialect.formatTable r) = r.2 := by decide
  refine ⟨h, ?_⟩
  rw [(dropAllTables_ignorelist_spec ["public"] exampleTableCatalog none h).2]
  decide

/-- C5: no built-in domain name is ever among the names dropAllDomains
joins into its statement, for any catalog; and the end-to-end scenario,
a catalog yielding cardinal_number and custom_status, emits exactly the
statement dropping custom_status. -/
theorem dropAllDomains_excludes_builtins :
    (∀ (schemas : List String) (pgType : List PgTypeRow) (pgNamespace : List Nat)
      (name : String), name ∈ PgDialect.builtInDomains →
      name ∉ PgDialect.domainsToDrop schemas pgType pgNamespace) ∧
    PgDialect.dropAllDomains [] exampleDomainTypeRows exampleNamespaceOids =
      some "DROP DOMAIN \"custom_status\" CASCADE;" := by
  constructor
  · intro schemas pgType pgNamespace name hin hmem
    have hpred := (List.mem_filter.mp hmem).2
    simp only [Bool.not_eq_true'] at hpred
    rw [List.contains_eq_any_beq] at hpred
    have : PgDialect.builtInDomains.any (name == ·) = true :=
      List.any_eq_true.mpr ⟨name, hin, by simp⟩
    rw [this] at hpred
    exact Bool.noConfusion hpred
  · decide

/-- Witness for C5 at the built-in name cardinal_number and the sample
domain catalog. -/
theorem dropAllDomains_excludes_builtins_witness :
    "cardinal_number" ∈ PgDialect.builtInDomains ∧
    "cardinal_number" ∉ PgDialect.domainsToDrop [] exampleDomainTypeRows exampleNamespaceOids :=
  ⟨by decide,
   dropAllDomains_excludes_builtins.1 [] exampleDomainTypeRows exampleNamespaceOids
     "cardinal_number" (by decide)⟩

/-- C6: for every table name, truncate with cascade emits exactly the
TRUNCATE statement with RESTART IDENTITY CASCADE and trailing
semicolon, and without cascade exactly the bare TRUNCATE statement with
trailing semicolon and neither clause; the identifier is wrapped in
double quotes only when it does not already start with one, as the two
concrete instances show. -/
theorem truncate_sql_shape (tbl : String) :
    PgDialect.truncate tbl true =
      "TRUNCATE " ++
        (if PgDialect.startsWithDq tbl then tbl else PgDialect.dqs ++ tbl ++ PgDialect.dqs) ++
        " RESTART IDENTITY CASCADE;" ∧
    PgDialect.truncate tbl false =
      "TRUNCATE " ++
        (if PgDialect.startsWithDq tbl then tbl else PgDialect.dqs ++ tbl ++ PgDialect.dqs) ++
        ";" ∧
    PgDialect.truncate "users" true = "TRUNCATE \"users\" RESTART IDENTITY CASCADE;" ∧
    PgDialect.truncate "users" false = "TRUNCATE \"users\";" ∧
    PgDialect.truncate "\"users\"" false = "TRUNCATE \"users\";" :=
  ⟨rfl, rfl, by decide, by decide, by decide⟩

/-- C7: getAdvisoryLock sends the non-blocking PG_TRY_ADVISORY_LOCK
statement for its key and returns exactly the boolean acquisition
status the driver reports in the lock_status column of the first row;
in particular a lock already held elsewhere yields false, not an
error. -/
theorem getAdvisoryLock_nonblocking_result (key : String)
    (rawQuery : String → PgDialect.RawResponse) (b : Bool)
    (h : (rawQuery (PgDialect.tryAdvisoryLockSql key)).rows = [⟨some b⟩]) :
    PgDialect.getAdvisoryLock key rawQuery = b := by
  simp only [PgDialect.getAdvisoryLock, h]
  cases b <;> rfl

/-- Witness for C7: the end-to-end scenario, the migrations key against
a driver reporting the lock as already held returns false. -/
theorem getAdvisoryLock_nonblocking_result_witness :
    PgDialect.getAdvisoryLock "migrations" heldLockDriver = false :=
  getAdvisoryLock_nonblocking_result "migrations" heldLockDriver false rfl

/-- C8: whenever transaction() returns a transaction client, the
profiler reference carried by that client is the parent client
profiler reference itself. -/
theorem transaction_propagates_profiler (c : QueryClient) (t : TransactionClient)
    (h : QueryClient.transaction c = Except.ok t) : t.profiler = c.profiler := by
  unfold QueryClient.transaction at h
  cases hgw : QueryClient.getWriteClient c with
  | error e => rw [hgw] at h; exact Except.noConfusion h
  | ok w =>
    rw [hgw] at h
    simp only [Except.map] at h
    cases h
    rfl

/-- Witness for C8 at a write-mode client carrying a profiler. -/
theorem transaction_propagates_profiler_witness :
    QueryClient.transaction sampleWriteClient = Except.ok sampleTrxClient ∧
    sampleTrxClient.profiler = sampleWriteClient.profiler :=
  ⟨rfl, transaction_propagates_profiler sampleWriteClient sampleTrxClient rfl⟩

/-- C9: on a read-mode client, truncate, columnsInfo, insertQuery,
table and transaction all fail with the same E_RUNTIME_EXCEPTION value
thrown by getWriteClient; the error branch of the model carries no
handle and no statement, so nothing reaches the database. -/
theorem read_mode_write_operations_raise (c : QueryClient) (tbl : String)
    (column : Option String) (h : c.mode = .read) :
    QueryClient.truncate c tbl = Except.error QueryClient.writeModeExn ∧
    QueryClient.columnsInfo c tbl column = Except.error QueryClient.writeModeExn ∧
    QueryClient.insertQuery c = Except.error QueryClient.writeModeExn ∧
    QueryClient.table c tbl = Except.error QueryClient.writeModeExn ∧
    QueryClient.transaction c = Except.error QueryClient.writeModeExn := by
  have hgw : QueryClient.getWriteClient c = Except.error QueryClient.writeModeExn := by
    simp [QueryClient.getWriteClient, h]
  refine ⟨?_, ?_, ?_, ?_, ?_⟩ <;>
    simp [QueryClient.truncate, QueryClient.columnsInfo, QueryClient.insertQuery,
      QueryClient.table, QueryClient.transaction, hgw, Except.map]

/-- Witness for C9 at a concrete read-mode client. -/
theorem read_mode_write_operations_raise_witness :
    QueryClient.truncate sampleReadClient "users" = Except.error QueryClient.writeModeExn ∧
    QueryClient.transaction sampleReadClient = Except.error QueryClient.writeModeExn :=
  ⟨(read_mode_write_operations_raise sampleReadClient "users" none rfl).1,
   (read_mode_write_operations_raise sampleReadClient "users" none rfl).2.2.2.2⟩

/-- C10: getAllTypes and getAllDomains ignore their schemas parameter:
over any one catalog state, any two schema lists produce identical
results. -/
theorem types_domains_ignore_schemas (s1 s2 : List String)
    (pgType : List PgTypeRow) (pgEnum pgNamespace : List Nat) :
    PgDialect.getAllTypes s1 pgType pgEnum = PgDialect.getAllTypes s2 pgType pgEnum ∧
    PgDialect.getAllDomains s1 pgType pgNamespace =
      PgDialect.getAllDomains s2 pgType pgNamespace :=
  ⟨rfl, rfl⟩
